import Mathlib

/-!
Shallow embedding of `gotify-slack` (`src/plugin.go`), a Gotify plugin that
relays Slack messages as push notifications.

The external collaborators (the Slack SDK's auth test, RTM connection,
directory lookups, and the transport disconnect) are modelled as explicit
parameters: a `World` record of oracles.  The plugin's mutable fields
(`enabled`, `config`, `api`, `rtm`, `uid`, `team`) become an explicit
`PluginState` that every operation threads through.  Message sending
(`msgHandler.SendMessage`) is modelled by returning the list of sent
messages.
-/

namespace GotifySlack

/-- `Config` mirrors the Go `Config` struct: a single Slack API token. -/
structure Config where
  slackToken : String
deriving DecidableEq, Repr

/-- A handle to one RTM connection (`*slack.RTM`).  The `alive` flag is the
transport's internal connection state, mutated only by the external
disconnect oracle. -/
structure Session where
  alive : Bool
deriving DecidableEq, Repr

/-- The fields of a Slack user record that the plugin reads
(`user.ID`, `user.RealName`). -/
structure User where
  id : String
  realName : String
deriving DecidableEq, Repr

/-- Directory oracle: `GetUserInfo` and `GetConversationInfo` (the plugin
only reads the conversation's `Name`). -/
structure Directory where
  lookupUser : String → Option User
  lookupChannel : String → Option String

/-- The inbound RTM events the loop in `startRTM` distinguishes:
`*slack.MessageEvent` (with `Msg.User`, `Msg.Channel`, `Msg.Text`),
`*slack.InvalidAuthEvent`, and everything else. -/
inductive InEvent where
  | message (senderId channelId text : String)
  | invalidAuth
  | other
deriving DecidableEq, Repr

/-- An outbound Gotify message (`plugin.Message`). -/
structure OutMessage where
  title : String
  message : String
  priority : Nat
deriving DecidableEq, Repr

/-- The errors the plugin code can return. -/
inductive PErr where
  | tokenInvalid
  | invalidCredentials
  | transport (msg : String)
  | auth (msg : String)
deriving DecidableEq, Repr

/-- The mutable fields of the Go `Plugin` struct.  `api` records the token
the `slack.Client` was built with (`nil` = `none`). -/
structure PluginState where
  enabled : Bool
  config : Option Config
  api : Option String
  rtm : Option Session
  uid : String
  team : String
deriving DecidableEq, Repr

/-- The external world: `validate` is `Config.Valid` (an `AuthTest` whose
error is discarded), `connect` is the `AuthTest` in `startRTM` returning
`(UserID, Team)`, `dc` is `rtm.Disconnect` (possibly mutating the session
and returning an error message), `dir` the directory lookups, and `events`
the inbound RTM event stream consumed by one `startRTM` run. -/
structure World where
  validate : String → Bool
  connect : String → Except String (String × String)
  dc : Session → Session × Option String
  dir : Directory
  events : List InEvent

/-! ## Mention rewriting

`var mentionRe = regexp.MustCompile(`...`)` matches `<@`, one or more
characters other than `>`, then `>`.  `ReplaceAllStringFunc` rewrites the
leftmost non-overlapping matches in order; the callback trims the cutset
`<@>` from both ends of the match, looks the remainder up and substitutes
`"@" + RealName`, or `"@Error"` on lookup failure.

The scanner below is a character-level state machine implementing exactly
that leftmost-match semantics: `norm` = outside any candidate match, `lt` =
just consumed a `<`, `body acc` = inside `<@…` with `acc` the (reversed)
body characters consumed so far.  A `>` closes a match iff the body is
nonempty; at end of input an unclosed candidate is emitted literally (no
`>` remains, so no match can start inside it). -/

/-- Characters of the Go trim cutset `"<@>"`. -/
def cutset (c : Char) : Bool := c = '<' || c = '@' || c = '>'

/-- Go `strings.Trim s "<@>"`: drop leading and trailing cutset characters. -/
def trimCut (cs : List Char) : List Char :=
  ((cs.dropWhile cutset).reverse.dropWhile cutset).reverse

/-- The replacement callback of `ReplaceAllStringFunc`, applied to a match
with body `body` (the full match is `<@` ++ body ++ `>`). -/
def mentionRepl (lookup : String → Option String) (body : List Char) : List Char :=
  match lookup (String.mk (trimCut ('<' :: '@' :: (body ++ ['>'])))) with
  | none => "@Error".data
  | some name => '@' :: name.data

/-- Scanner state for the mention rewriter. -/
inductive ScanSt where
  | norm
  | lt
  | body (acc : List Char)
deriving DecidableEq, Repr

/-- One left-to-right pass implementing `mentionRe.ReplaceAllStringFunc`. -/
def scanMentions (lookup : String → Option String) : ScanSt → List Char → List Char
  | .norm, [] => []
  | .norm, c :: cs =>
      if c = '<' then scanMentions lookup .lt cs
      else c :: scanMentions lookup .norm cs
  | .lt, [] => ['<']
  | .lt, c :: cs =>
      if c = '<' then '<' :: scanMentions lookup .lt cs
      else if c = '@' then scanMentions lookup (.body []) cs
      else '<' :: c :: scanMentions lookup .norm cs
  | .body acc, [] => '<' :: '@' :: acc.reverse
  | .body acc, c :: cs =>
      if c = '>' then
        if acc = [] then '<' :: '@' :: '>' :: scanMentions lookup .norm cs
        else mentionRepl lookup acc.reverse ++ scanMentions lookup .norm cs
      else scanMentions lookup (.body (c :: acc)) cs

/-- `mentionRe.ReplaceAllStringFunc text callback`. -/
def rewriteMentions (lookup : String → Option String) (text : String) : String :=
  String.mk (scanMentions lookup .norm text.data)

/-- Whether a match of the mention pattern occurs, tracked with the same
scanner states (only the emptiness of the body matters). -/
def hasMentionFrom : ScanSt → List Char → Bool
  | _, [] => false
  | .norm, c :: cs =>
      if c = '<' then hasMentionFrom .lt cs
      else hasMentionFrom .norm cs
  | .lt, c :: cs =>
      if c = '<' then hasMentionFrom .lt cs
      else if c = '@' then hasMentionFrom (.body []) cs
      else hasMentionFrom .norm cs
  | .body acc, c :: cs =>
      if c = '>' then
        if acc = [] then hasMentionFrom .norm cs
        else true
      else hasMentionFrom (.body (c :: acc)) cs

/-- The text contains at least one match of the mention pattern. -/
def hasMention (cs : List Char) : Bool := hasMentionFrom .norm cs

/-- What the scanner owes the output for a pending state. -/
def stEmit : ScanSt → List Char
  | .norm => []
  | .lt => ['<']
  | .body acc => '<' :: '@' :: acc.reverse

theorem scanMentions_no_match (lookup : String → Option String) :
    ∀ (cs : List Char) (st : ScanSt), hasMentionFrom st cs = false →
      scanMentions lookup st cs = stEmit st ++ cs := by
  intro cs
  induction cs with
  | nil =>
    intro st _
    cases st <;> simp [scanMentions, stEmit]
  | cons c cs ih =>
    intro st h
    cases st with
    | norm =>
      by_cases hc : c = '<'
      · subst hc
        simp only [hasMentionFrom, if_pos rfl] at h
        simp [scanMentions, ih _ h, stEmit]
      · simp only [hasMentionFrom, if_neg hc] at h
        simp [scanMentions, if_neg hc, ih _ h, stEmit]
    | lt =>
      by_cases hc : c = '<'
      · subst hc
        simp only [hasMentionFrom, if_pos rfl] at h
        simp [scanMentions, ih _ h, stEmit]
      · by_cases hc2 : c = '@'
        · subst hc2
          simp only [hasMentionFrom, if_neg hc, if_pos rfl] at h
          simp [scanMentions, if_neg hc, ih _ h, stEmit]
        · simp only [hasMentionFrom, if_neg hc, if_neg hc2] at h
          simp [scanMentions, if_neg hc, if_neg hc2, ih _ h, stEmit]
    | body acc =>
      by_cases hc : c = '>'
      · subst hc
        by_cases ha : acc = []
        · subst ha
          simp only [hasMentionFrom, if_pos rfl] at h
          simp [scanMentions, ih _ h, stEmit]
        · simp [hasMentionFrom, ha] at h
      · simp only [hasMentionFrom, if_neg hc] at h
        simp [scanMentions, if_neg hc, ih _ h, stEmit]

/-! ## The streaming loop (`startRTM`) and plugin lifecycle -/

/-- The body of the `*slack.MessageEvent` arm of the loop in `startRTM`:
resolve the channel (`GetConversationInfo`), resolve the sender
(`GetUserInfo`), drop the event on either failure or when the resolved
user's id equals the plugin's own `uid`; otherwise build the title, rewrite
mentions in the text and produce the Gotify message (priority 5). -/
def handleMessage (d : Directory) (uid team : String)
    (senderId channelId text : String) : Option OutMessage :=
  match d.lookupChannel channelId with
  | none => none
  | some chName =>
    match d.lookupUser senderId with
    | none => none
    | some user =>
      if user.id = uid then none
      else
        let title0 := "Slack | " ++ team ++ " | "
        let title1 := if chName = "" then title0 else title0 ++ (chName ++ " | ")
        let msgtext := rewriteMentions
          (fun i => Option.map User.realName (d.lookupUser i)) text
        some { title := title1 ++ user.realName, message := msgtext, priority := 5 }

/-- The `for msg := range c.rtm.IncomingEvents` loop of `startRTM`:
message events contribute their (optional) Gotify message and the loop
continues; an `InvalidAuthEvent` returns the invalid-credentials error at
once; other events are ignored; when the stream ends the loop returns
success. -/
def runLoop (d : Directory) (uid team : String) :
    List InEvent → List OutMessage × Option PErr
  | [] => ([], none)
  | .message s ch t :: rest =>
      ((handleMessage d uid team s ch t).toList ++ (runLoop d uid team rest).1,
        (runLoop d uid team rest).2)
  | .invalidAuth :: _ => ([], some .invalidCredentials)
  | .other :: rest => runLoop d uid team rest

/-- `Plugin.stopRTM`: with no RTM handle, clear the client and succeed;
otherwise call the transport's `Disconnect` on the session (keeping the
handle) and return its result. -/
def stopRTM (dc : Session → Session × Option String) (st : PluginState) :
    PluginState × Option String :=
  match st.rtm with
  | none => ({ st with api := none }, none)
  | some s => ({ st with rtm := some (dc s).1 }, (dc s).2)

/-- `Plugin.startRTM`: build the client from the stored token, run
`AuthTest` (propagating its error), record `uid`/`team`, create the RTM
session, and consume the inbound event stream. -/
def startRTM (w : World) (st : PluginState) :
    PluginState × List OutMessage × Option PErr :=
  let token := (st.config.getD ⟨""⟩).slackToken
  let st1 := { st with api := some token }
  match w.connect token with
  | .error e => (st1, [], some (.auth e))
  | .ok (uid, team) =>
      let st2 := { st1 with uid := uid, team := team, rtm := some ⟨true⟩ }
      (st2, (runLoop w.dir uid team w.events).1, (runLoop w.dir uid team w.events).2)

/-- `Plugin.ValidateAndSetConfig`: empty token means "just stop the RTM";
a token failing `Config.Valid` is rejected with the state untouched;
otherwise the new config is stored, and if the plugin is enabled the old
session is stopped (propagating any error) and a new one started. -/
def validateAndSetConfig (w : World) (st : PluginState) (conf : Config) :
    PluginState × List OutMessage × Option PErr :=
  if conf.slackToken = "" then
    ((stopRTM w.dc st).1, [], Option.map PErr.transport (stopRTM w.dc st).2)
  else if ¬ w.validate conf.slackToken then
    (st, [], some .tokenInvalid)
  else
    let st1 := { st with config := some conf }
    if ¬ st1.enabled then (st1, [], none)
    else
      match (stopRTM w.dc st1).2 with
      | some m => ((stopRTM w.dc st1).1, [], some (.transport m))
      | none => startRTM w (stopRTM w.dc st1).1

/-- `Plugin.Disable`: stop the RTM, propagating its error with the state
otherwise untouched; only on success clear the `enabled` flag. -/
def disable (dc : Session → Session × Option String) (st : PluginState) :
    PluginState × Option String :=
  match (stopRTM dc st).2 with
  | some m => ((stopRTM dc st).1, some m)
  | none => ({ (stopRTM dc st).1 with enabled := false }, none)

/-! ## Helper lemmas -/

theorem stopRTM_config (dc : Session → Session × Option String)
    (st : PluginState) : (stopRTM dc st).1.config = st.config := by
  cases h : st.rtm <;> simp [stopRTM, h]

theorem stopRTM_enabled (dc : Session → Session × Option String)
    (st : PluginState) : (stopRTM dc st).1.enabled = st.enabled := by
  cases h : st.rtm <;> simp [stopRTM, h]

theorem startRTM_config (w : World) (st : PluginState) :
    (startRTM w st).1.config = st.config := by
  unfold startRTM
  cases h : w.connect (st.config.getD ⟨""⟩).slackToken with
  | error e => simp [h]
  | ok p => cases p with | mk uid team => simp [h]

theorem runLoop_append_congr (d : Directory) (uid team : String)
    {l1 l2 : List InEvent}
    (h : runLoop d uid team l1 = runLoop d uid team l2) :
    ∀ pre : List InEvent,
      runLoop d uid team (pre ++ l1) = runLoop d uid team (pre ++ l2) := by
  intro pre
  induction pre with
  | nil => simpa using h
  | cons ev pre ih =>
    cases ev with
    | message s ch t => simp [runLoop, ih]
    | invalidAuth => simp [runLoop]
    | other => simpa [runLoop] using ih

theorem runLoop_drop_message (d : Directory) (uid team s ch t : String)
    (rest : List InEvent) (h : handleMessage d uid team s ch t = none) :
    runLoop d uid team (.message s ch t :: rest) = runLoop d uid team rest := by
  simp [runLoop, h]

theorem str_append_assoc (a b c : String) : a ++ b ++ c = a ++ (b ++ c) := by
  cases a
  cases b
  cases c
  show String.mk _ = String.mk _
  rw [List.append_assoc]

/-! ## Concrete fixtures used by witnesses and counterexamples -/

/-- Lookup for the spec's mention scenario: `U123` resolves to `Alice`,
everything else fails. -/
def exLookup : String → Option String :=
  fun i => if i = "U123" then some "Alice" else none

/-- A small concrete directory. -/
def exDir : Directory where
  lookupUser := fun i =>
    if i = "U123" then some ⟨"U123", "Alice"⟩
    else if i = "USELF" then some ⟨"USELF", "Self"⟩
    else if i = "UJANE" then some ⟨"UJANE", "Jane Doe"⟩
    else none
  lookupChannel := fun i =>
    if i = "CGEN" then some "general"
    else if i = "CEMPTY" then some ""
    else none

/-- A transport whose disconnect always fails. -/
def dcBoom : Session → Session × Option String := fun s => (s, some "boom")

/-- A transport like the real SDK: disconnecting a live session succeeds
and marks it dead; disconnecting a dead session errors. -/
def dcStrict : Session → Session × Option String :=
  fun s => if s.alive then (⟨false⟩, none) else (s, some "already disconnected")

/-- A transport whose disconnect always succeeds. -/
def dcOk : Session → Session × Option String := fun _ => (⟨false⟩, none)

/-- A directory where every lookup fails. -/
def trivDir : Directory := ⟨fun _ => none, fun _ => none⟩

/-- World with a failing disconnect. -/
def wBoom : World := ⟨fun _ => true, fun _ => .error "no", dcBoom, trivDir, []⟩

/-- World whose credential validation rejects everything. -/
def wReject : World := ⟨fun _ => false, fun _ => .error "no", dcOk, trivDir, []⟩

/-- World where everything succeeds and the event stream is empty. -/
def wOk : World := ⟨fun _ => true, fun _ => .ok ("USELF", "Acme"), dcOk, exDir, []⟩

/-- A plugin state with an enabled plugin and a live session. -/
def stLive : PluginState := ⟨true, some ⟨"tok"⟩, some "tok", some ⟨true⟩, "U0", "T0"⟩

/-- A freshly created plugin state. -/
def stIdle : PluginState := ⟨false, none, none, none, "", ""⟩

/-! ## Claims -/

/-- C3: the mention rewriter returns its input unchanged on text containing
zero matches; each match is rewritten from its own lookup alone — a
resolving id is replaced by `"@" ++ displayName`, a failing id by
`"@Error"` — and on `"hello <@U123> and <@U456>"` with `U123 ↦ Alice` and
`U456` failing, the output is `"hello @Alice and @Error"`, so one failing
match does not affect its neighbour. -/
theorem c3_mention_rewriter :
    (∀ (lookup : String → Option String) (text : String),
        hasMention text.data = false → rewriteMentions lookup text = text)
    ∧ (∀ (lookup : String → Option String) (body : List Char) (name : String),
        lookup (String.mk (trimCut ('<' :: '@' :: (body ++ ['>'])))) = some name →
          mentionRepl lookup body = '@' :: name.data)
    ∧ (∀ (lookup : String → Option String) (body : List Char),
        lookup (String.mk (trimCut ('<' :: '@' :: (body ++ ['>'])))) = none →
          mentionRepl lookup body = "@Error".data)
    ∧ rewriteMentions exLookup "hello <@U123> and <@U456>"
        = "hello @Alice and @Error" := by
  refine ⟨?_, ?_, ?_, by decide⟩
  · intro lookup text h
    unfold rewriteMentions
    rw [scanMentions_no_match lookup text.data .norm h]
    cases text
    rfl
  · intro lookup body name h
    simp [mentionRepl, h]
  · intro lookup body h
    simp [mentionRepl, h]

/-- Witness for C3 at concrete inputs. -/
theorem c3_witness :
    rewriteMentions exLookup "no mentions here" = "no mentions here"
    ∧ mentionRepl exLookup "U123".data = '@' :: "Alice".data :=
  ⟨c3_mention_rewriter.1 exLookup "no mentions here" (by decide),
    c3_mention_rewriter.2.1 exLookup "U123".data "Alice" (by decide)⟩

/-- C2: an inbound chat message whose sender id equals the bridge's own
self-identifier contributes no outbound notification and does not disturb
the rest of the stream, for any channel id and text (assuming the
directory returns user records carrying the queried id, as Slack does). -/
theorem c2_self_message_dropped (d : Directory) (uid team ch t : String)
    (pre post : List InEvent)
    (hcoh : ∀ u : User, d.lookupUser uid = some u → u.id = uid) :
    runLoop d uid team (pre ++ InEvent.message uid ch t :: post)
      = runLoop d uid team (pre ++ post) := by
  apply runLoop_append_congr
  have hnone : handleMessage d uid team uid ch t = none := by
    cases hch : d.lookupChannel ch with
    | none => simp [handleMessage, hch]
    | some chName =>
      cases hu : d.lookupUser uid with
      | none => simp [handleMessage, hch, hu]
      | some u => simp [handleMessage, hch, hu, hcoh u hu]
  exact runLoop_drop_message d uid team uid ch t post hnone

/-- Witness for C2 at a concrete directory and event. -/
theorem c2_witness :
    runLoop exDir "USELF" "Acme" ([] ++ InEvent.message "USELF" "CGEN" "hi" :: [])
      = runLoop exDir "USELF" "Acme" ([] ++ []) :=
  c2_self_message_dropped exDir "USELF" "Acme" "CGEN" "hi" [] []
    (by
      intro u h
      have h2 : exDir.lookupUser "USELF" = some (User.mk "USELF" "Self") := by decide
      rw [h2] at h
      cases Option.some.inj h
      rfl)

/-- C4: a qualifying chat message produces a notification titled
`"Slack | " ++ team ++ " | " ++ channelName ++ " | " ++ realName` when the
resolved channel name is nonempty, and
`"Slack | " ++ team ++ " | " ++ realName` when it is empty. -/
theorem c4_title_format (d : Directory) (uid team s ch t chName : String)
    (u : User) (hch : d.lookupChannel ch = some chName)
    (hu : d.lookupUser s = some u) (hne : u.id ≠ uid) :
    Option.map OutMessage.title (handleMessage d uid team s ch t)
      = some (if chName = "" then "Slack | " ++ team ++ " | " ++ u.realName
              else "Slack | " ++ team ++ " | " ++ chName ++ " | " ++ u.realName) := by
  simp only [handleMessage, hch, hu]
  by_cases hc : chName = ""
  · simp [hne, hc]
  · simp [hne, hc, str_append_assoc]

/-- Witness for C4: workspace `Acme`, channel `general`, sender
`Jane Doe` yields the title `Slack | Acme | general | Jane Doe`. -/
theorem c4_witness :
    Option.map OutMessage.title
        (handleMessage exDir "USELF" "Acme" "UJANE" "CGEN" "hello")
      = some "Slack | Acme | general | Jane Doe" := by
  rw [c4_title_format exDir "USELF" "Acme" "UJANE" "CGEN" "hello" "general"
    (User.mk "UJANE" "Jane Doe") (by decide) (by decide) (by decide)]
  decide

/-- C5: an invalid-auth event terminates the loop at once with the
invalid-credentials error: the messages sent are exactly those of the
events before it, and the events after it are never processed. -/
theorem c5_invalid_auth_terminates (d : Directory) (uid team : String)
    (pre post : List InEvent) (hpre : InEvent.invalidAuth ∉ pre) :
    runLoop d uid team (pre ++ InEvent.invalidAuth :: post)
      = ((runLoop d uid team pre).1, some PErr.invalidCredentials) := by
  induction pre with
  | nil => simp [runLoop]
  | cons ev pre ih =>
    have hpre' : InEvent.invalidAuth ∉ pre :=
      fun hm => hpre (List.mem_cons_of_mem _ hm)
    cases ev with
    | message s ch t => simp [runLoop, ih hpre']
    | invalidAuth => exact absurd (List.mem_cons_self _ _) hpre
    | other => simp [runLoop, ih hpre']

/-- Witness for C5 at a concrete stream. -/
theorem c5_witness :
    runLoop trivDir "U" "T"
        ([InEvent.other] ++ InEvent.invalidAuth :: [InEvent.message "a" "b" "c"])
      = ((runLoop trivDir "U" "T" [InEvent.other]).1, some PErr.invalidCredentials) :=
  c5_invalid_auth_terminates trivDir "U" "T" [InEvent.other]
    [InEvent.message "a" "b" "c"] (by decide)

/-- C6: a chat message whose channel lookup or sender lookup fails is
dropped and invisible: the loop's output on the surrounding stream equals
its output with that event removed, so the failure neither stops the loop
nor escapes to the caller. -/
theorem c6_lookup_failure_drops_event (d : Directory) (uid team s ch t : String)
    (pre post : List InEvent)
    (h : d.lookupChannel ch = none ∨ d.lookupUser s = none) :
    runLoop d uid team (pre ++ InEvent.message s ch t :: post)
      = runLoop d uid team (pre ++ post) := by
  apply runLoop_append_congr
  have hnone : handleMessage d uid team s ch t = none := by
    cases h with
    | inl hch => simp [handleMessage, hch]
    | inr hu =>
      cases hch : d.lookupChannel ch with
      | none => simp [handleMessage, hch]
      | some chName => simp [handleMessage, hch, hu]
  exact runLoop_drop_message d uid team s ch t post hnone

/-- Witness for C6: a message in an unknown channel is dropped while the
rest of the stream is processed. -/
theorem c6_witness :
    runLoop exDir "USELF" "Acme"
        ([] ++ InEvent.message "U123" "CNONE" "x" :: [InEvent.other])
      = runLoop exDir "USELF" "Acme" ([] ++ [InEvent.other]) :=
  c6_lookup_failure_drops_event exDir "USELF" "Acme" "U123" "CNONE" "x"
    [] [InEvent.other] (by decide)

/-- Counterexample to C1 as stated: with an active session whose transport
disconnect fails, `ValidateAndSetConfig` with an empty credential returns
that disconnect error rather than success. -/
theorem c1_counterexample :
    (validateAndSetConfig wBoom stLive ⟨""⟩).2.2 = some (PErr.transport "boom") := by
  decide

/-- C1 (amended): with an empty credential, `ValidateAndSetConfig` performs
exactly the session teardown (`stopRTM`) and returns its result — success
whenever the disconnect succeeds, and in particular whenever no session
object exists — leaving the stored credential and the enabled flag
unchanged; only a failing transport disconnect makes it return an error. -/
theorem c1_empty_token_is_teardown (w : World) (st : PluginState) (conf : Config)
    (h : conf.slackToken = "") :
    validateAndSetConfig w st conf
        = ((stopRTM w.dc st).1, [], Option.map PErr.transport (stopRTM w.dc st).2)
    ∧ (validateAndSetConfig w st conf).1.config = st.config
    ∧ (validateAndSetConfig w st conf).1.enabled = st.enabled
    ∧ (st.rtm = none →
        validateAndSetConfig w st conf = ({ st with api := none }, [], none)) := by
  have he : validateAndSetConfig w st conf
      = ((stopRTM w.dc st).1, [], Option.map PErr.transport (stopRTM w.dc st).2) := by
    simp [validateAndSetConfig, h]
  refine ⟨he, ?_, ?_, ?_⟩
  · rw [he]
    exact stopRTM_config w.dc st
  · rw [he]
    exact stopRTM_enabled w.dc st
  · intro hr
    rw [he]
    simp [stopRTM, hr]

/-- Witness for C1 (amended) at a concrete idle state. -/
theorem c1_witness :
    validateAndSetConfig wOk stIdle ⟨""⟩ = ({ stIdle with api := none }, [], none) :=
  (c1_empty_token_is_teardown wOk stIdle ⟨""⟩ rfl).2.2.2 rfl

/-- C7: a non-empty credential failing the external validity check makes
`ValidateAndSetConfig` return the invalid-token error with the whole prior
state — stored credential, enabled flag and session — exactly unchanged. -/
theorem c7_invalid_token_rejected (w : World) (st : PluginState) (conf : Config)
    (hne : conf.slackToken ≠ "") (hv : w.validate conf.slackToken = false) :
    validateAndSetConfig w st conf = (st, [], some PErr.tokenInvalid) := by
  simp [validateAndSetConfig, hne, hv]

/-- Witness for C7 at a concrete rejecting world. -/
theorem c7_witness :
    validateAndSetConfig wReject stLive ⟨"badtok"⟩
      = (stLive, [], some PErr.tokenInvalid) :=
  c7_invalid_token_rejected wReject stLive ⟨"badtok"⟩ (by decide) (by decide)

/-- Counterexample to C8 as stated: the plugin never clears its RTM handle,
so after a previous successful `Disable` a second `Disable` calls the
transport disconnect again; with a transport that rejects disconnecting an
already-dead session (as the vendor SDK does), the second call errors. -/
theorem c8_counterexample :
    (disable dcStrict stLive).2 = none
    ∧ (disable dcStrict (disable dcStrict stLive).1).2
        = some "already disconnected" := by
  decide

/-- C8 (amended): `Disable` with no session object (idle, never connected)
returns success unconditionally, merely clearing the client and the
enabled flag; but after a previous successful `Disable` the retained
session handle makes `Disable` invoke the transport disconnect again and
return its result, which need not be success. -/
theorem c8_disable_no_session (dc : Session → Session × Option String)
    (st : PluginState) (h : st.rtm = none) :
    disable dc st = ({ st with api := none, enabled := false }, none) := by
  simp [disable, stopRTM, h]

/-- Witness for C8 (amended) at the idle state. -/
theorem c8_witness :
    disable dcOk stIdle = ({ stIdle with api := none, enabled := false }, none) :=
  c8_disable_no_session dcOk stIdle rfl

/-- C9: `Disable` is atomic with respect to the enabled flag: on a failed
disconnect it returns the error and leaves the flag unchanged; the flag is
cleared only when the disconnect succeeds. -/
theorem c9_disable_atomic_enabled (dc : Session → Session × Option String)
    (st : PluginState) :
    ((disable dc st).2 = none → (disable dc st).1.enabled = false)
    ∧ ((disable dc st).2 ≠ none → (disable dc st).1.enabled = st.enabled) := by
  cases hd : (stopRTM dc st).2 with
  | none => simp [disable, hd]
  | some m => simp [disable, hd, stopRTM_enabled]

/-- Witness for C9 at a concrete failing transport. -/
theorem c9_witness :
    (disable dcBoom stLive).1.enabled = stLive.enabled :=
  (c9_disable_atomic_enabled dcBoom stLive).2 (by decide)

/-- C10: a valid non-empty credential supplied while the plugin is enabled
is stored before the old session is torn down, so whatever happens next —
teardown failure (whose error is returned) or a failed session start
(whose auth error is returned) — the plugin keeps the new credential. -/
theorem c10_new_credential_retained (w : World) (st : PluginState) (conf : Config)
    (hne : conf.slackToken ≠ "") (hv : w.validate conf.slackToken = true)
    (hen : st.enabled = true) :
    (validateAndSetConfig w st conf).1.config = some conf
    ∧ (∀ m, (stopRTM w.dc { st with config := some conf }).2 = some m →
        (validateAndSetConfig w st conf).2.2 = some (PErr.transport m))
    ∧ (∀ e, (stopRTM w.dc { st with config := some conf }).2 = none →
        w.connect conf.slackToken = Except.error e →
        (validateAndSetConfig w st conf).2.2 = some (PErr.auth e)) := by
  cases st with
  | mk en cfg0 api0 rtm0 uid0 team0 =>
    simp only at hen
    subst hen
    cases hd : (stopRTM w.dc
        { enabled := true, config := some conf, api := api0, rtm := rtm0,
          uid := uid0, team := team0 }).2 with
    | some m =>
      have he : validateAndSetConfig w
            ⟨true, cfg0, api0, rtm0, uid0, team0⟩ conf
          = ((stopRTM w.dc
              { enabled := true, config := some conf, api := api0, rtm := rtm0,
                uid := uid0, team := team0 }).1, [],
              some (PErr.transport m)) := by
        simp [validateAndSetConfig, hne, hv, hd]
      refine ⟨?_, ?_, ?_⟩
      · rw [he]
        simp [stopRTM_config]
      · intro m' hm'
        obtain rfl : m' = m := (Option.some.inj hm').symm
        rw [he]
      · intro e h0 _
        exact Option.noConfusion h0
    | none =>
      have he : validateAndSetConfig w
            ⟨true, cfg0, api0, rtm0, uid0, team0⟩ conf
          = startRTM w (stopRTM w.dc
              { enabled := true, config := some conf, api := api0, rtm := rtm0,
                uid := uid0, team := team0 }).1 := by
        simp [validateAndSetConfig, hne, hv, hd]
      have hcfg : (stopRTM w.dc
          { enabled := true, config := some conf, api := api0, rtm := rtm0,
            uid := uid0, team := team0 }).1.config = some conf := by
        rw [stopRTM_config]
      refine ⟨?_, ?_, ?_⟩
      · rw [he, startRTM_config, hcfg]
      · intro m hm
        exact Option.noConfusion hm
      · intro e _ hce
        rw [he]
        have htok : ((stopRTM w.dc
            { enabled := true, config := some conf, api := api0, rtm := rtm0,
              uid := uid0, team := team0 }).1.config.getD ⟨""⟩).slackToken
            = conf.slackToken := by
          rw [hcfg]
          rfl
        simp [startRTM, htok, hce]

/-- Witness for C10: with everything succeeding, the new credential is
stored. -/
theorem c10_witness :
    (validateAndSetConfig wOk stLive ⟨"newtok"⟩).1.config = some ⟨"newtok"⟩ :=
  (c10_new_credential_retained wOk stLive ⟨"newtok"⟩
    (by decide) (by decide) (by decide)).1

end GotifySlack
